import Mathlib

/-
Verification of the RDF-graph validation core of the croissant repository.

Embedded source files:
  ml_croissant/_src/rdf_graph/graph.py        (_find_entry_object, check_rdf_graph)
  ml_croissant/_src/structure_graph/nodes/metadata.py  (Metadata dataclass)

Parts of the repository used by those files but not present in the source
tree (the Issues collector, children_nodes, from_rdf_graph, the Node base
class with assert_has_mandatory_properties / assert_has_optional_properties,
and the predicate constants) are modelled from the specification; each such
definition carries a doc comment saying so.
-/

namespace Croissant

/-- An RDF term as it appears as a node of the NetworkX multidigraph:
either a blank node (rdflib.term.BNode, identified by an opaque id) or a
literal value (strings and IRIs treated as terminal values). -/
inductive RdfTerm where
  | bnode (id : String)
  | literal (value : String)
deriving DecidableEq, Repr

/-- isinstance(node, rdflib.term.BNode) from graph.py line 36. -/
def RdfTerm.isBNode : RdfTerm → Bool
  | .bnode _ => true
  | .literal _ => false

/-- One subject -(predicate)-> object edge of the multidigraph. -/
structure Edge where
  subj : RdfTerm
  pred : String
  obj : RdfTerm
deriving DecidableEq, Repr

/-- The NetworkX MultiDiGraph produced by the out-of-scope front end:
a node list and an insertion-ordered edge list (parallel edges allowed). -/
structure MultiDiGraph where
  nodes : List RdfTerm
  edges : List Edge
deriving DecidableEq, Repr

/-- graph.in_degree(node): the number of incoming edges of a node,
counting parallel edges individually. -/
def inDegree (g : MultiDiGraph) (n : RdfTerm) : Nat :=
  (g.edges.filter (fun e => decide (e.obj = n))).length

/-- The list comprehension of graph.py lines 33-37: nodes of the graph with
in-degree 0 that are blank nodes, in graph node order. -/
def entrySources (g : MultiDiGraph) : List RdfTerm :=
  g.nodes.filter (fun n => decide (inDegree g n = 0) && n.isBNode)

/-- Modelled from the spec: the Diagnostic Context (core/issues.py is not in
the source tree) - an ordered mapping of the four named scopes to their
current values; a scope that was never pushed holds none. -/
structure Context where
  dataset_name : Option String
  distribution_name : Option String
  record_set_name : Option String
  field_name : Option String
deriving DecidableEq, Repr

/-- The initial context of a fresh validation run: no scope pushed. -/
def Context.empty : Context := ⟨none, none, none, none⟩

/-- Severity of an issue: error or warning. -/
inductive Severity where
  | error
  | warning
deriving DecidableEq, Repr

/-- The distinct diagnostic messages the embedded code can emit.
multipleDatasets renders as the string of graph.py line 39 and noField as
the string of graph.py line 80; missingMandatory f / missingOptional f are
the per-property messages of the (modelled) Node base-class checks,
referencing the property name f. -/
inductive Message where
  | multipleDatasets
  | noField
  | missingMandatory (property : String)
  | missingOptional (property : String)
deriving DecidableEq, Repr

/-- Modelled from the spec: an Issue is a severity, a message and the
Diagnostic Context that was active when it was raised. -/
structure Issue where
  severity : Severity
  message : Message
  context : Context
deriving DecidableEq, Repr

/-- Modelled from the spec: the Issues collector (core/issues.py is not in
the source tree) - the current context plus the accumulated issue list in
emission order. -/
structure Issues where
  context : Context
  issues : List Issue
deriving DecidableEq, Repr

/-- A fresh Issues collector: empty context, no issues. -/
def Issues.empty : Issues := ⟨Context.empty, []⟩

/-- Modelled from the spec: issues.add_error appends an error tagged with
the currently active context; it never throws. -/
def Issues.add_error (is : Issues) (m : Message) : Issues :=
  { is with issues := is.issues ++ [⟨Severity.error, m, is.context⟩] }

/-- Modelled from the spec: issues.add_warning appends a warning tagged
with the currently active context. -/
def Issues.add_warning (is : Issues) (m : Message) : Issues :=
  { is with issues := is.issues ++ [⟨Severity.warning, m, is.context⟩] }

/-- Modelled from the spec: constants.SCHEMA_ORG_DISTRIBUTION
(core/constants.py is not in the source tree). -/
def SCHEMA_ORG_DISTRIBUTION : String := "https://schema.org/distribution"

/-- Modelled from the spec: constants.ML_COMMONS_RECORD_SET. -/
def ML_COMMONS_RECORD_SET : String := "http://mlcommons.org/schema/RecordSet"

/-- Modelled from the spec: constants.ML_COMMONS_FIELD. -/
def ML_COMMONS_FIELD : String := "http://mlcommons.org/schema/Field"

/-- Modelled from the spec: constants.ML_COMMONS_SUB_FIELD. -/
def ML_COMMONS_SUB_FIELD : String := "http://mlcommons.org/schema/SubField"

/-- The node variants of the structure graph. -/
inductive NodeKind where
  | metadata
  | distribution
  | recordSet
  | field
  | subField
deriving DecidableEq, Repr

/-- The mandatory / optional property contract of one node variant. -/
structure VariantSchema where
  mandatory : List String
  optional : List String
deriving DecidableEq, Repr

/-- The per-variant contracts. The metadata row is taken from
metadata.py lines 18-20 (mandatory name and url, optional citation and
license). The other variants are not in the source tree and are modelled
from the spec: every node carries an identifying mandatory name. -/
def schemaOf : NodeKind → VariantSchema
  | .metadata => ⟨["name", "url"], ["citation", "license"]⟩
  | .distribution => ⟨["name"], []⟩
  | .recordSet => ⟨["name"], []⟩
  | .field => ⟨["name"], []⟩
  | .subField => ⟨["name"], []⟩

/-- Modelled from the spec: the properties(node) view of the Graph Adapter,
restricted to one property name - the first literal target of an outgoing
edge of n labelled with that property, if any. The external predicate-IRI
to field-name schema table is out of scope, so property names label the
edges directly. -/
def getProperty (g : MultiDiGraph) (n : RdfTerm) (property : String) : Option String :=
  (g.edges.filterMap (fun e =>
    if e.subj = n ∧ e.pred = property then
      match e.obj with
      | .literal v => some v
      | .bnode _ => none
    else none)).head?

/-- A property value is missing when it is absent or the empty string. -/
def isEmptyVal : Option String → Bool
  | none => true
  | some v => decide (v = "")

/-- A materialized structure-graph node: its variant, the graph position it
was materialized from, its identifying name, and the present declared
properties copied from the graph. -/
structure Node where
  kind : NodeKind
  uid : RdfTerm
  name : String
  props : List (String × String)
deriving DecidableEq, Repr

/-- Modelled from the spec: the pure part of the Node Materializer - the
node constructed for a graph position, with the name property and all
present declared properties copied from the graph. -/
def materialize (g : MultiDiGraph) (uid : RdfTerm) (kind : NodeKind) : Node :=
  { kind := kind
    uid := uid
    name := (getProperty g uid "name").getD ""
    props := ((schemaOf kind).mandatory ++ (schemaOf kind).optional).filterMap
      (fun f =>
        match getProperty g uid f with
        | some v => if v = "" then none else some (f, v)
        | none => none) }

/-- Modelled from the spec: Node.assert_has_mandatory_properties of the
base_node module (not in the source tree) - for every listed property whose
value is absent or empty, record one error referencing that property name
under the current context. -/
def assert_has_mandatory_properties (getter : String → Option String) :
    List String → Issues → Issues
  | [], is => is
  | p :: ps, is =>
    assert_has_mandatory_properties getter ps
      (if isEmptyVal (getter p) then is.add_error (Message.missingMandatory p) else is)

/-- Modelled from the spec: Node.assert_has_optional_properties of the
base_node module - for every listed property whose value is absent or
empty, record one warning referencing that property name. -/
def assert_has_optional_properties (getter : String → Option String) :
    List String → Issues → Issues
  | [], is => is
  | p :: ps, is =>
    assert_has_optional_properties getter ps
      (if isEmptyVal (getter p) then is.add_warning (Message.missingOptional p) else is)

/-- Modelled from the spec: from_rdf_graph of structure_graph/graph.py (not
in the source tree) - runs the mandatory then the optional property check of
the variant and returns the materialized node regardless of violations. -/
def from_rdf_graph (is : Issues) (g : MultiDiGraph) (uid : RdfTerm) (kind : NodeKind) :
    Issues × Node :=
  let sch := schemaOf kind
  let is1 := assert_has_mandatory_properties (getProperty g uid) sch.mandatory is
  let is2 := assert_has_optional_properties (getProperty g uid) sch.optional is1
  (is2, materialize g uid kind)

/-- Keep the first occurrence of every element not already seen, in order. -/
def dedupAux (seen : List RdfTerm) : List RdfTerm → List RdfTerm
  | [] => []
  | x :: xs => if x ∈ seen then dedupAux seen xs else x :: dedupAux (x :: seen) xs

/-- Keep the first occurrence of every element, in order. -/
def dedupKeepFirst (l : List RdfTerm) : List RdfTerm := dedupAux [] l

/-- Modelled from the spec: the children(node, predicate) view of the Graph
Adapter - all distinct targets of outgoing edges of n labelled pred, in
edge-insertion order. -/
def childIds (g : MultiDiGraph) (n : RdfTerm) (pred : String) : List RdfTerm :=
  dedupKeepFirst (g.edges.filterMap (fun e =>
    if e.subj = n ∧ e.pred = pred then some e.obj else none))

/-- Modelled from the spec: the node variant a child reached over the given
predicate is materialized as. -/
def kindOfPredicate (pred : String) : NodeKind :=
  if pred = SCHEMA_ORG_DISTRIBUTION then NodeKind.distribution
  else if pred = ML_COMMONS_RECORD_SET then NodeKind.recordSet
  else if pred = ML_COMMONS_FIELD then NodeKind.field
  else if pred = ML_COMMONS_SUB_FIELD then NodeKind.subField
  else NodeKind.metadata

/-- The pure node part of children_nodes: the children of a graph position
materialized in order. -/
def childNodes (g : MultiDiGraph) (uid : RdfTerm) (pred : String) : List Node :=
  (childIds g uid pred).map (fun u => materialize g u (kindOfPredicate pred))

/-- Materialize a list of graph positions in order, threading the issues. -/
def materializeList (g : MultiDiGraph) (kind : NodeKind) :
    Issues → List RdfTerm → Issues × List Node
  | is, [] => (is, [])
  | is, u :: us =>
    let p := from_rdf_graph is g u kind
    let q := materializeList g kind p.1 us
    (q.1, p.2 :: q.2)

/-- Modelled from the spec: children_nodes of structure_graph/graph.py (not
in the source tree) - fetch the children of the node over the predicate and
materialize each as the variant belonging to the predicate. -/
def children_nodes (is : Issues) (g : MultiDiGraph) (node : Node) (pred : String) :
    Issues × List Node :=
  materializeList g (kindOfPredicate pred) is (childIds g node.uid pred)

/-- graph.py lines 31-40, _find_entry_object: the in-degree-0 blank nodes
are collected; when their number differs from 1 one error is recorded; the
first element is returned. The Python return of sources[0] raises
IndexError on an empty list, which the embedding renders as the second
component none (head? of the empty list): no value is returned. -/
def find_entry_object (is : Issues) (g : MultiDiGraph) : Issues × Option RdfTerm :=
  let sources := entrySources g
  let is1 := if sources.length ≠ 1 then is.add_error Message.multipleDatasets else is
  (is1, sources.head?)

/-- The inner field loop of graph.py lines 81-83: for every field, fetch
and materialize its sub-fields and append them. -/
def subFieldsOf (g : MultiDiGraph) : Issues → List Node → Issues × List Node
  | is, [] => (is, [])
  | is, f :: fs =>
    let p := children_nodes is g f ML_COMMONS_SUB_FIELD
    let q := subFieldsOf g p.1 fs
    (q.1, p.2 ++ q.2)

/-- The record-set loop of graph.py lines 71-83: for every record set, push
the dataset / record-set / field context scopes, fetch and materialize its
fields, record the structural error when there is no field, walk the
sub-fields, and restore the context on exit of the with-block. -/
def walkRecordSets (g : MultiDiGraph) (dataset_name : String) :
    Issues → List Node → Issues × List Node
  | is, [] => (is, [])
  | is, rs :: rest =>
    let saved := is.context
    let is1 := { is with context :=
      { saved with dataset_name := some dataset_name,
                   record_set_name := some rs.name, field_name := some "" } }
    let p := children_nodes is1 g rs ML_COMMONS_FIELD
    let is2 := if p.2.length = 0 then p.1.add_error Message.noField else p.1
    let q := subFieldsOf g is2 p.2
    let is3 := { q.1 with context := saved }
    let r := walkRecordSets g dataset_name is3 rest
    (r.1, (p.2 ++ q.2) ++ r.2)

/-- graph.py lines 43-84, check_rdf_graph: resolve the entry object,
materialize it as Metadata, materialize the distributions inside the
dataset context block, materialize the record sets after that block has
restored the context, then walk every record set. When the entry
resolution raised (no source), the Python exception propagates with the
issues already mutated: the embedding returns the issues and no node
list. -/
def check_rdf_graph (is : Issues) (g : MultiDiGraph) : Issues × Option (List Node) :=
  let p := find_entry_object is g
  match p.2 with
  | none => (p.1, none)
  | some source =>
    let q := from_rdf_graph p.1 g source NodeKind.metadata
    let metadata := q.2
    let dataset_name := metadata.name
    let saved := q.1.context
    let is1 := { q.1 with context :=
      { saved with dataset_name := some dataset_name, distribution_name := some "" } }
    let r := children_nodes is1 g metadata SCHEMA_ORG_DISTRIBUTION
    let is2 := { r.1 with context := saved }
    let s := children_nodes is2 g metadata ML_COMMONS_RECORD_SET
    let t := walkRecordSets g dataset_name s.1 s.2
    (t.1, some (metadata :: (r.2 ++ s.2 ++ t.2)))

/-- metadata.py lines 8-16: the frozen Metadata dataclass with its field
defaults (citation, description, license default to None; name and url
default to the empty string). -/
structure Metadata where
  citation : Option String := none
  description : Option String := none
  license : Option String := none
  name : String := ""
  url : String := ""
deriving DecidableEq, Repr

/-- Modelled from the spec: the duck-typed attribute lookup by string used
by the base-class property checks (base_node is not in the source tree). -/
def Metadata.getattr (m : Metadata) : String → Option String
  | "citation" => m.citation
  | "description" => m.description
  | "license" => m.license
  | "name" => some m.name
  | "url" => some m.url
  | _ => none

/-- metadata.py line 19: the properties passed to
assert_has_mandatory_properties. -/
def Metadata.mandatoryProperties : List String := ["name", "url"]

/-- metadata.py line 20: the properties passed to
assert_has_optional_properties. -/
def Metadata.optionalProperties : List String := ["citation", "license"]

/-- metadata.py lines 18-20, Metadata.post_init: run the mandatory check
on name and url, then the optional check on citation and license, against
the given issues collector. -/
def Metadata.postInit (m : Metadata) (is : Issues) : Issues :=
  assert_has_optional_properties m.getattr Metadata.optionalProperties
    (assert_has_mandatory_properties m.getattr Metadata.mandatoryProperties is)

/-- Dataclass construction followed by post_init: the validated collector
and the constructed instance, which is returned regardless of violations. -/
def Metadata.make (citation description license : Option String)
    (name url : String) (is : Issues) : Issues × Metadata :=
  let m : Metadata := ⟨citation, description, license, name, url⟩
  (m.postInit is, m)

/-- metadata.py line 8: the dataclass is declared with frozen equal True. -/
def Metadata.frozen : Bool := true

/-- The five fields of the Metadata dataclass, as assignment targets. -/
inductive MetadataField where
  | citation
  | description
  | license
  | name
  | url
deriving DecidableEq, Repr

/-- The dataclasses FrozenInstanceError raised on assignment to a field of
a frozen instance. -/
inductive FrozenInstanceError where
  | frozenInstanceError
deriving DecidableEq, Repr

/-- The field update an assignment would perform were the dataclass not
frozen. -/
def Metadata.updateField (m : Metadata) : MetadataField → Option String → Metadata
  | .citation, v => { m with citation := v }
  | .description, v => { m with description := v }
  | .license, v => { m with license := v }
  | .name, v => { m with name := v.getD "" }
  | .url, v => { m with url := v.getD "" }

/-- The dataclass setattr protocol: on a frozen dataclass every field
assignment raises FrozenInstanceError instead of updating the field. -/
def Metadata.setattr (m : Metadata) (f : MetadataField) (v : Option String) :
    Except FrozenInstanceError Metadata :=
  if Metadata.frozen then Except.error FrozenInstanceError.frozenInstanceError
  else Except.ok (m.updateField f v)

/-- Concatenation of the images of a list-valued function, in order. -/
def concatMap {α β : Type} (f : α → List β) : List α → List β
  | [] => []
  | x :: xs => f x ++ concatMap f xs

/-- The issues emitted when materializing one graph position as the given
variant under the given active context: one error per missing mandatory
property followed by one warning per missing optional property. -/
def matIssues (g : MultiDiGraph) (uid : RdfTerm) (kind : NodeKind) (ctx : Context) :
    List Issue :=
  ((schemaOf kind).mandatory.filterMap (fun f =>
      if isEmptyVal (getProperty g uid f) then
        some ⟨Severity.error, Message.missingMandatory f, ctx⟩
      else none))
  ++ ((schemaOf kind).optional.filterMap (fun f =>
      if isEmptyVal (getProperty g uid f) then
        some ⟨Severity.warning, Message.missingOptional f, ctx⟩
      else none))

/-- The issues emitted when materializing a list of graph positions. -/
def listMatIssues (g : MultiDiGraph) (kind : NodeKind) (ctx : Context)
    (us : List RdfTerm) : List Issue :=
  concatMap (fun u => matIssues g u kind ctx) us

/-- The context pushed by the distribution with-block of graph.py line 66:
dataset_name set to the dataset name and distribution_name set to the
empty string, the other scopes untouched. -/
def pushDistContext (saved : Context) (dn : String) : Context :=
  { saved with dataset_name := some dn, distribution_name := some "" }

/-- The context pushed by the record-set with-block of graph.py lines
72-76: dataset_name, record_set_name and field_name set, the other scopes
untouched. -/
def pushRsContext (saved : Context) (dn : String) (rsName : String) : Context :=
  { saved with dataset_name := some dn, record_set_name := some rsName,
               field_name := some "" }

/-- The issues one record-set iteration of the walk emits: the field
materialization issues, the structural no-field error when the field list
is empty, and the sub-field materialization issues, all under the pushed
record-set context. -/
def rsIssues (g : MultiDiGraph) (dn : String) (saved : Context) (rs : Node) :
    List Issue :=
  let ctx := pushRsContext saved dn rs.name
  let fids := childIds g rs.uid ML_COMMONS_FIELD
  listMatIssues g NodeKind.field ctx fids
  ++ (if fids.length = 0 then [⟨Severity.error, Message.noField, ctx⟩] else [])
  ++ concatMap
      (fun f => listMatIssues g NodeKind.subField ctx
        (childIds g f.uid ML_COMMONS_SUB_FIELD))
      (childNodes g rs.uid ML_COMMONS_FIELD)

/-- The nodes one record-set iteration of the walk appends: its fields
followed by every field's sub-fields. -/
def rsBlock (g : MultiDiGraph) (rs : Node) : List Node :=
  childNodes g rs.uid ML_COMMONS_FIELD
  ++ concatMap (fun f => childNodes g f.uid ML_COMMONS_SUB_FIELD)
      (childNodes g rs.uid ML_COMMONS_FIELD)

/-- An issue is a structural error when it is an error carrying one of the
two structural messages (multiple datasets, record set without fields). -/
def Issue.isStructuralError (i : Issue) : Bool :=
  decide (i.severity = Severity.error) &&
    (decide (i.message = Message.multipleDatasets) || decide (i.message = Message.noField))


/-- A graph with one blank node and no edges: exactly one entry source. -/
def gOne : MultiDiGraph := ⟨[.bnode "m"], []⟩

/-- A graph with two parentless blank nodes: two entry sources. -/
def gTwo : MultiDiGraph := ⟨[.bnode "s1", .bnode "s2"], []⟩

/-- The empty graph: no entry source at all. -/
def gEmptyG : MultiDiGraph := ⟨[], []⟩

/-- The P5 scenario graph: metadata m with name and url, distributions d1
and d2, record sets r1 (fields a and b, no sub-fields) and r2 (no
fields). -/
def gP5 : MultiDiGraph :=
  ⟨[.bnode "m", .bnode "d1", .bnode "d2", .bnode "r1", .bnode "r2", .bnode "a", .bnode "b",
    .literal "Titanic", .literal "https://www.openml.org/d/40945"],
   [⟨.bnode "m", "name", .literal "Titanic"⟩,
    ⟨.bnode "m", "url", .literal "https://www.openml.org/d/40945"⟩,
    ⟨.bnode "m", SCHEMA_ORG_DISTRIBUTION, .bnode "d1"⟩,
    ⟨.bnode "m", SCHEMA_ORG_DISTRIBUTION, .bnode "d2"⟩,
    ⟨.bnode "m", ML_COMMONS_RECORD_SET, .bnode "r1"⟩,
    ⟨.bnode "m", ML_COMMONS_RECORD_SET, .bnode "r2"⟩,
    ⟨.bnode "r1", ML_COMMONS_FIELD, .bnode "a"⟩,
    ⟨.bnode "r1", ML_COMMONS_FIELD, .bnode "b"⟩]⟩

/-- A graph with two record sets r1 and r2 where r1 has field a and r2 has
field b: in the output all record sets precede all fields. -/
def gAdj : MultiDiGraph :=
  ⟨[.bnode "m", .bnode "r1", .bnode "r2", .bnode "a", .bnode "b"],
   [⟨.bnode "m", ML_COMMONS_RECORD_SET, .bnode "r1"⟩,
    ⟨.bnode "m", ML_COMMONS_RECORD_SET, .bnode "r2"⟩,
    ⟨.bnode "r1", ML_COMMONS_FIELD, .bnode "a"⟩,
    ⟨.bnode "r2", ML_COMMONS_FIELD, .bnode "b"⟩]⟩

/-- A graph whose single record set r (named passengers) has no fields. -/
def gNoFieldRs : MultiDiGraph :=
  ⟨[.bnode "m", .bnode "r",
    .literal "Titanic", .literal "https://www.openml.org/d/40945", .literal "passengers"],
   [⟨.bnode "m", "name", .literal "Titanic"⟩,
    ⟨.bnode "m", "url", .literal "https://www.openml.org/d/40945"⟩,
    ⟨.bnode "m", ML_COMMONS_RECORD_SET, .bnode "r"⟩,
    ⟨.bnode "r", "name", .literal "passengers"⟩]⟩

/-- A graph whose record set r lacks its mandatory name property (its field
f is fine and the metadata has all four declared properties): materializing
r emits an error while no context scope is pushed. -/
def gRsNoName : MultiDiGraph :=
  ⟨[.bnode "m", .bnode "r", .bnode "f",
    .literal "Titanic", .literal "https://www.openml.org/d/40945",
    .literal "cite", .literal "mit", .literal "survived"],
   [⟨.bnode "m", "name", .literal "Titanic"⟩,
    ⟨.bnode "m", "url", .literal "https://www.openml.org/d/40945"⟩,
    ⟨.bnode "m", "citation", .literal "cite"⟩,
    ⟨.bnode "m", "license", .literal "mit"⟩,
    ⟨.bnode "m", ML_COMMONS_RECORD_SET, .bnode "r"⟩,
    ⟨.bnode "r", ML_COMMONS_FIELD, .bnode "f"⟩,
    ⟨.bnode "f", "name", .literal "survived"⟩]⟩

theorem add_error_context (is : Issues) (m : Message) :
    (is.add_error m).context = is.context := rfl

theorem assert_mand_spec (getter : String → Option String) (ps : List String) :
    ∀ is : Issues,
    assert_has_mandatory_properties getter ps is =
      { is with issues := is.issues ++ ps.filterMap (fun f =>
          if isEmptyVal (getter f) then
            some ⟨Severity.error, Message.missingMandatory f, is.context⟩
          else none) } := by
  induction ps with
  | nil => intro is; simp [assert_has_mandatory_properties]
  | cons p ps ih =>
    intro is
    rw [assert_has_mandatory_properties, ih]
    cases h : isEmptyVal (getter p) <;>
      simp [h, Issues.add_error, List.filterMap_cons]

theorem assert_opt_spec (getter : String → Option String) (ps : List String) :
    ∀ is : Issues,
    assert_has_optional_properties getter ps is =
      { is with issues := is.issues ++ ps.filterMap (fun f =>
          if isEmptyVal (getter f) then
            some ⟨Severity.warning, Message.missingOptional f, is.context⟩
          else none) } := by
  induction ps with
  | nil => intro is; simp [assert_has_optional_properties]
  | cons p ps ih =>
    intro is
    rw [assert_has_optional_properties, ih]
    cases h : isEmptyVal (getter p) <;>
      simp [h, Issues.add_warning, List.filterMap_cons]

theorem from_rdf_graph_spec (is : Issues) (g : MultiDiGraph) (uid : RdfTerm) (kind : NodeKind) :
    from_rdf_graph is g uid kind =
      ({ is with issues := is.issues ++ matIssues g uid kind is.context },
       materialize g uid kind) := by
  rw [from_rdf_graph]
  simp [assert_mand_spec, assert_opt_spec, matIssues]

theorem materialize_uid (g : MultiDiGraph) (u : RdfTerm) (k : NodeKind) :
    (materialize g u k).uid = u := rfl

theorem materializeList_spec (g : MultiDiGraph) (kind : NodeKind) (us : List RdfTerm) :
    ∀ is : Issues,
    materializeList g kind is us =
      ({ is with issues := is.issues ++ listMatIssues g kind is.context us },
       us.map (fun u => materialize g u kind)) := by
  induction us with
  | nil => intro is; simp [materializeList, listMatIssues, concatMap]
  | cons u us ih =>
    intro is
    rw [materializeList]
    simp only [from_rdf_graph_spec, ih, listMatIssues, concatMap]
    simp [List.append_assoc]

theorem children_nodes_spec (is : Issues) (g : MultiDiGraph) (node : Node) (pred : String) :
    children_nodes is g node pred =
      ({ is with issues := is.issues ++
          listMatIssues g (kindOfPredicate pred) is.context (childIds g node.uid pred) },
       childNodes g node.uid pred) := by
  rw [children_nodes, materializeList_spec, childNodes]

theorem subFieldsOf_spec (g : MultiDiGraph) (fs : List Node) :
    ∀ is : Issues,
    subFieldsOf g is fs =
      ({ is with issues := is.issues ++ concatMap (fun f =>
          listMatIssues g (kindOfPredicate ML_COMMONS_SUB_FIELD) is.context
            (childIds g f.uid ML_COMMONS_SUB_FIELD)) fs },
       concatMap (fun f => childNodes g f.uid ML_COMMONS_SUB_FIELD) fs) := by
  induction fs with
  | nil => intro is; simp [subFieldsOf, concatMap]
  | cons f fs ih =>
    intro is
    rw [subFieldsOf]
    simp only [children_nodes_spec, ih, concatMap]
    simp [List.append_assoc]

theorem kindOf_sub : kindOfPredicate ML_COMMONS_SUB_FIELD = NodeKind.subField := by decide

theorem kindOf_field : kindOfPredicate ML_COMMONS_FIELD = NodeKind.field := by decide

theorem kindOf_rs : kindOfPredicate ML_COMMONS_RECORD_SET = NodeKind.recordSet := by decide

theorem kindOf_dist : kindOfPredicate SCHEMA_ORG_DISTRIBUTION = NodeKind.distribution := by decide

theorem walkRecordSets_spec (g : MultiDiGraph) (dn : String) (rss : List Node) :
    ∀ is : Issues,
    walkRecordSets g dn is rss =
      ({ is with issues := is.issues ++ concatMap (rsIssues g dn is.context) rss },
       concatMap (rsBlock g) rss) := by
  induction rss with
  | nil => intro is; simp [walkRecordSets, concatMap]
  | cons rs rest ih =>
    intro is
    rw [walkRecordSets]
    simp only [children_nodes_spec, subFieldsOf_spec, ih]
    by_cases h : (childIds g rs.uid ML_COMMONS_FIELD).length = 0 <;>
      simp [h, rsIssues, rsBlock, pushRsContext, Issues.add_error, concatMap,
        kindOf_field, kindOf_sub, childNodes, List.length_map, List.append_assoc]

theorem check_rdf_graph_none (is : Issues) (g : MultiDiGraph)
    (h : entrySources g = []) :
    check_rdf_graph is g = (is.add_error Message.multipleDatasets, none) := by
  rw [check_rdf_graph]
  simp [find_entry_object, h]

def checkIssueStream (g : MultiDiGraph) (m0 : RdfTerm) (rest : List RdfTerm)
    (ctx : Context) : List Issue :=
  (if rest = [] then [] else [⟨Severity.error, Message.multipleDatasets, ctx⟩])
  ++ matIssues g m0 NodeKind.metadata ctx
  ++ listMatIssues g NodeKind.distribution
      (pushDistContext ctx (materialize g m0 NodeKind.metadata).name)
      (childIds g m0 SCHEMA_ORG_DISTRIBUTION)
  ++ listMatIssues g NodeKind.recordSet ctx (childIds g m0 ML_COMMONS_RECORD_SET)
  ++ concatMap (rsIssues g (materialize g m0 NodeKind.metadata).name ctx)
      (childNodes g m0 ML_COMMONS_RECORD_SET)

def checkNodeList (g : MultiDiGraph) (m0 : RdfTerm) : List Node :=
  materialize g m0 NodeKind.metadata
    :: (childNodes g m0 SCHEMA_ORG_DISTRIBUTION
        ++ childNodes g m0 ML_COMMONS_RECORD_SET
        ++ concatMap (rsBlock g) (childNodes g m0 ML_COMMONS_RECORD_SET))

theorem check_rdf_graph_spec (is : Issues) (g : MultiDiGraph) (m0 : RdfTerm)
    (rest : List RdfTerm) (h : entrySources g = m0 :: rest) :
    check_rdf_graph is g =
      ({ is with issues := is.issues ++ checkIssueStream g m0 rest is.context },
       some (checkNodeList g m0)) := by
  rw [check_rdf_graph]
  by_cases hr : rest = [] <;>
    simp [find_entry_object, h, hr, from_rdf_graph_spec, children_nodes_spec,
      walkRecordSets_spec, pushDistContext, kindOf_dist, kindOf_rs, materialize_uid,
      Issues.add_error, checkIssueStream, checkNodeList, List.append_assoc]

theorem mem_concatMap {α β : Type} (f : α → List β) (l : List α) (b : β) :
    b ∈ concatMap f l ↔ ∃ a ∈ l, b ∈ f a := by
  induction l with
  | nil => simp [concatMap]
  | cons x xs ih => simp [concatMap, ih]

theorem filter_concatMap {α β : Type} (p : β → Bool) (f : α → List β) (l : List α) :
    (concatMap f l).filter p = concatMap (fun x => (f x).filter p) l := by
  induction l with
  | nil => simp [concatMap]
  | cons x xs ih => simp [concatMap, List.filter_append, ih]

theorem concatMap_ite_singleton {α β : Type} (q : α → Bool) (e : α → β) (l : List α) :
    concatMap (fun x => if q x then [e x] else []) l = (l.filter q).map e := by
  induction l with
  | nil => simp [concatMap]
  | cons x xs ih =>
    by_cases h : q x <;> simp [concatMap, h, ih]

theorem matIssues_mem (g : MultiDiGraph) (u : RdfTerm) (k : NodeKind) (ctx : Context) :
    ∀ i ∈ matIssues g u k ctx,
      i.context = ctx ∧ Issue.isStructuralError i = false ∧ i.message ≠ Message.noField := by
  intro i hi
  simp only [matIssues, List.mem_append, List.mem_filterMap] at hi
  rcases hi with ⟨f, _, he⟩ | ⟨f, _, he⟩ <;>
  · split at he
    · cases he
      simp [Issue.isStructuralError]
    · cases he

theorem listMatIssues_mem (g : MultiDiGraph) (k : NodeKind) (ctx : Context)
    (us : List RdfTerm) :
    ∀ i ∈ listMatIssues g k ctx us,
      i.context = ctx ∧ Issue.isStructuralError i = false ∧ i.message ≠ Message.noField := by
  intro i hi
  rw [listMatIssues, mem_concatMap] at hi
  obtain ⟨u, _, hiu⟩ := hi
  exact matIssues_mem g u k ctx i hiu

theorem listMatIssues_filter_structural (g : MultiDiGraph) (k : NodeKind) (ctx : Context)
    (us : List RdfTerm) :
    (listMatIssues g k ctx us).filter Issue.isStructuralError = [] := by
  rw [List.filter_eq_nil_iff]
  intro i hi
  simp [(listMatIssues_mem g k ctx us i hi).2.1]

theorem listMatIssues_filter_noField (g : MultiDiGraph) (k : NodeKind) (ctx : Context)
    (us : List RdfTerm) :
    (listMatIssues g k ctx us).filter (fun i => decide (i.message = Message.noField)) = [] := by
  rw [List.filter_eq_nil_iff]
  intro i hi
  simp [(listMatIssues_mem g k ctx us i hi).2.2]

theorem concatMap_nil_fun {α β : Type} (l : List α) :
    concatMap (fun _ => ([] : List β)) l = [] := by
  induction l with
  | nil => rfl
  | cons x xs ih => simpa [concatMap] using ih

theorem rsIssues_filter_structural (g : MultiDiGraph) (dn : String) (saved : Context)
    (rs : Node) :
    (rsIssues g dn saved rs).filter Issue.isStructuralError =
      if (childIds g rs.uid ML_COMMONS_FIELD).length = 0 then
        [⟨Severity.error, Message.noField, pushRsContext saved dn rs.name⟩]
      else [] := by
  rw [rsIssues]
  simp only [List.filter_append, listMatIssues_filter_structural, filter_concatMap]
  by_cases h : (childIds g rs.uid ML_COMMONS_FIELD).length = 0 <;>
    simp [h, Issue.isStructuralError, listMatIssues_filter_structural,
      concatMap_nil_fun]

theorem matIssues_filter_structural (g : MultiDiGraph) (u : RdfTerm) (k : NodeKind)
    (ctx : Context) :
    (matIssues g u k ctx).filter Issue.isStructuralError = [] := by
  rw [List.filter_eq_nil_iff]
  intro i hi
  simp [(matIssues_mem g u k ctx i hi).2.1]

theorem matIssues_filter_noField (g : MultiDiGraph) (u : RdfTerm) (k : NodeKind)
    (ctx : Context) :
    (matIssues g u k ctx).filter (fun i => decide (i.message = Message.noField)) = [] := by
  rw [List.filter_eq_nil_iff]
  intro i hi
  simp [(matIssues_mem g u k ctx i hi).2.2]

theorem concatMap_ite_single {α β : Type} (q : α → Prop) [DecidablePred q] (e : α → β)
    (l : List α) :
    concatMap (fun x => if q x then [e x] else []) l =
      (l.filter (fun x => decide (q x))).map e := by
  induction l with
  | nil => rfl
  | cons x xs ih =>
    by_cases h : q x <;> simp [concatMap, h, ih]

theorem rsIssues_filter_noField (g : MultiDiGraph) (dn : String) (saved : Context)
    (rs : Node) :
    (rsIssues g dn saved rs).filter (fun i => decide (i.message = Message.noField)) =
      if (childIds g rs.uid ML_COMMONS_FIELD).length = 0 then
        [⟨Severity.error, Message.noField, pushRsContext saved dn rs.name⟩]
      else [] := by
  rw [rsIssues]
  simp only [List.filter_append, listMatIssues_filter_noField, filter_concatMap]
  by_cases h : (childIds g rs.uid ML_COMMONS_FIELD).length = 0 <;>
    simp [h, listMatIssues_filter_noField, concatMap_nil_fun]

theorem checkIssueStream_filter_structural (g : MultiDiGraph) (m0 : RdfTerm)
    (rest : List RdfTerm) (ctx : Context) :
    (checkIssueStream g m0 rest ctx).filter Issue.isStructuralError =
      (if rest = [] then [] else [⟨Severity.error, Message.multipleDatasets, ctx⟩])
      ++ ((childNodes g m0 ML_COMMONS_RECORD_SET).filter
            (fun rs => decide ((childIds g rs.uid ML_COMMONS_FIELD).length = 0))).map
          (fun rs => ⟨Severity.error, Message.noField,
            pushRsContext ctx (materialize g m0 NodeKind.metadata).name rs.name⟩) := by
  rw [checkIssueStream]
  simp only [List.filter_append, matIssues_filter_structural,
    listMatIssues_filter_structural, filter_concatMap, rsIssues_filter_structural]
  rw [concatMap_ite_single]
  by_cases h : rest = [] <;> simp [h, Issue.isStructuralError]

theorem checkIssueStream_filter_noField (g : MultiDiGraph) (m0 : RdfTerm)
    (rest : List RdfTerm) (ctx : Context) :
    (checkIssueStream g m0 rest ctx).filter (fun i => decide (i.message = Message.noField)) =
      ((childNodes g m0 ML_COMMONS_RECORD_SET).filter
          (fun rs => decide ((childIds g rs.uid ML_COMMONS_FIELD).length = 0))).map
        (fun rs => ⟨Severity.error, Message.noField,
          pushRsContext ctx (materialize g m0 NodeKind.metadata).name rs.name⟩) := by
  rw [checkIssueStream]
  simp only [List.filter_append, matIssues_filter_noField,
    listMatIssues_filter_noField, filter_concatMap, rsIssues_filter_noField]
  rw [concatMap_ite_single]
  by_cases h : rest = [] <;> simp [h]

/-- Every issue of one record-set iteration carries the pushed record-set
context. -/
theorem rsIssues_mem_context (g : MultiDiGraph) (dn : String) (saved : Context)
    (rs : Node) :
    ∀ i ∈ rsIssues g dn saved rs, i.context = pushRsContext saved dn rs.name := by
  intro i hi
  simp only [rsIssues, List.mem_append] at hi
  rcases hi with (hi | hi) | hi
  · exact (listMatIssues_mem _ _ _ _ i hi).1
  · split at hi
    · simp only [List.mem_singleton] at hi
      subst hi
      rfl
    · simp at hi
  · rw [mem_concatMap] at hi
    obtain ⟨f, _, hif⟩ := hi
    exact (listMatIssues_mem _ _ _ _ i hif).1

/-- filterMap of a guarded constructor is map over filter. -/
theorem filterMap_ite_some {α β : Type} (c : α → Bool) (e : α → β) (l : List α) :
    l.filterMap (fun x => if c x then some (e x) else none) = (l.filter c).map e := by
  induction l with
  | nil => rfl
  | cons x xs ih =>
    by_cases h : c x <;> simp [h, ih]

/-- C1: for every graph with metadata M, distributions D1 and D2, and
record sets R1 (fields A and B, no sub-fields) and R2 (no fields),
check_rdf_graph returns the node list [M, D1, D2, R1, R2, A, B] in exactly
that order, and the diagnostics contain exactly one structural error,
namely the no-field error for R2 under R2's record-set context. -/
theorem claim_C1 (g : MultiDiGraph) (m0 u1 u2 v1 v2 w1 w2 : RdfTerm)
    (hS : entrySources g = [m0])
    (hD : childIds g m0 SCHEMA_ORG_DISTRIBUTION = [u1, u2])
    (hR : childIds g m0 ML_COMMONS_RECORD_SET = [v1, v2])
    (hF1 : childIds g v1 ML_COMMONS_FIELD = [w1, w2])
    (hF2 : childIds g v2 ML_COMMONS_FIELD = [])
    (hG1 : childIds g w1 ML_COMMONS_SUB_FIELD = [])
    (hG2 : childIds g w2 ML_COMMONS_SUB_FIELD = []) :
    (check_rdf_graph Issues.empty g).2 =
      some [materialize g m0 NodeKind.metadata,
            materialize g u1 NodeKind.distribution,
            materialize g u2 NodeKind.distribution,
            materialize g v1 NodeKind.recordSet,
            materialize g v2 NodeKind.recordSet,
            materialize g w1 NodeKind.field,
            materialize g w2 NodeKind.field]
    ∧ (check_rdf_graph Issues.empty g).1.issues.filter Issue.isStructuralError =
        [⟨Severity.error, Message.noField,
          ⟨some (materialize g m0 NodeKind.metadata).name, none,
           some (materialize g v2 NodeKind.recordSet).name, some ""⟩⟩] := by
  rw [check_rdf_graph_spec Issues.empty g m0 [] hS]
  constructor
  · simp [checkNodeList, childNodes, hD, hR, kindOf_dist, kindOf_rs, rsBlock,
      materialize_uid, hF1, hF2, hG1, hG2, kindOf_field, kindOf_sub, concatMap]
  · simp only [Issues.empty, List.nil_append]
    rw [checkIssueStream_filter_structural]
    simp [childNodes, hR, kindOf_rs, materialize_uid, hF1, hF2, pushRsContext,
      Context.empty]

/-- Witness for C1: the concrete P5 graph gP5 satisfies every hypothesis
and yields the stated node list and the single structural error. -/
theorem claim_C1_witness :
    entrySources gP5 = [RdfTerm.bnode "m"]
    ∧ childIds gP5 (RdfTerm.bnode "m") SCHEMA_ORG_DISTRIBUTION =
        [RdfTerm.bnode "d1", RdfTerm.bnode "d2"]
    ∧ childIds gP5 (RdfTerm.bnode "m") ML_COMMONS_RECORD_SET =
        [RdfTerm.bnode "r1", RdfTerm.bnode "r2"]
    ∧ childIds gP5 (RdfTerm.bnode "r1") ML_COMMONS_FIELD =
        [RdfTerm.bnode "a", RdfTerm.bnode "b"]
    ∧ childIds gP5 (RdfTerm.bnode "r2") ML_COMMONS_FIELD = []
    ∧ childIds gP5 (RdfTerm.bnode "a") ML_COMMONS_SUB_FIELD = []
    ∧ childIds gP5 (RdfTerm.bnode "b") ML_COMMONS_SUB_FIELD = []
    ∧ ((check_rdf_graph Issues.empty gP5).2 =
        some [materialize gP5 (RdfTerm.bnode "m") NodeKind.metadata,
              materialize gP5 (RdfTerm.bnode "d1") NodeKind.distribution,
              materialize gP5 (RdfTerm.bnode "d2") NodeKind.distribution,
              materialize gP5 (RdfTerm.bnode "r1") NodeKind.recordSet,
              materialize gP5 (RdfTerm.bnode "r2") NodeKind.recordSet,
              materialize gP5 (RdfTerm.bnode "a") NodeKind.field,
              materialize gP5 (RdfTerm.bnode "b") NodeKind.field]
      ∧ (check_rdf_graph Issues.empty gP5).1.issues.filter Issue.isStructuralError =
          [⟨Severity.error, Message.noField,
            ⟨some (materialize gP5 (RdfTerm.bnode "m") NodeKind.metadata).name, none,
             some (materialize gP5 (RdfTerm.bnode "r2") NodeKind.recordSet).name,
             some ""⟩⟩]) :=
  ⟨by decide, by decide, by decide, by decide, by decide, by decide, by decide,
   claim_C1 gP5 (RdfTerm.bnode "m") (RdfTerm.bnode "d1") (RdfTerm.bnode "d2")
     (RdfTerm.bnode "r1") (RdfTerm.bnode "r2") (RdfTerm.bnode "a") (RdfTerm.bnode "b")
     (by decide) (by decide) (by decide) (by decide) (by decide) (by decide) (by decide)⟩

/-- C2: for every graph with exactly one in-degree-0 blank node,
_find_entry_object returns that node and adds zero diagnostics; for every
graph with zero or two-or-more in-degree-0 blank nodes, exactly one
structural error (the multiple-datasets error of graph.py line 39) is
emitted. -/
theorem claim_C2 (is : Issues) (g : MultiDiGraph) :
    (∀ n : RdfTerm, entrySources g = [n] → find_entry_object is g = (is, some n))
    ∧ ((entrySources g).length ≠ 1 →
        (find_entry_object is g).1.issues =
          is.issues ++ [⟨Severity.error, Message.multipleDatasets, is.context⟩]) := by
  constructor
  · intro n h
    simp [find_entry_object, h]
  · intro h
    simp [find_entry_object, h, Issues.add_error]

/-- Witness for C2: on gOne (one source) the node is returned with no new
diagnostics; on gTwo (two sources) exactly one structural error is
appended. -/
theorem claim_C2_witness :
    (entrySources gOne = [RdfTerm.bnode "m"]
      ∧ find_entry_object Issues.empty gOne = (Issues.empty, some (RdfTerm.bnode "m")))
    ∧ ((entrySources gTwo).length ≠ 1
      ∧ (find_entry_object Issues.empty gTwo).1.issues =
          Issues.empty.issues
            ++ [⟨Severity.error, Message.multipleDatasets, Issues.empty.context⟩]) :=
  ⟨⟨by decide, (claim_C2 Issues.empty gOne).1 (RdfTerm.bnode "m") (by decide)⟩,
   ⟨by decide, (claim_C2 Issues.empty gTwo).2 (by decide)⟩⟩

/-- Counterexample to C3: on the graph with no in-degree-0 blank node the
claim asserts a normal return of a sentinel value, but the embedded
_find_entry_object yields no value at all - the second component is none,
rendering the IndexError raised by the Python subscript sources[0] on the
empty source list - while the error has already been recorded. -/
theorem claim_C3_counterexample :
    (find_entry_object Issues.empty gEmptyG).2 = none
    ∧ (find_entry_object Issues.empty gEmptyG).1.issues =
        [⟨Severity.error, Message.multipleDatasets, Context.empty⟩] := by decide

/-- C3 as amended: for every graph whose set S of in-degree-0 blank nodes
is not a singleton, _find_entry_object records exactly one error and
evaluates to the first element of S when S is non-empty; when S is empty
it produces no value (the sources[0] subscript raises IndexError), rather
than returning a sentinel. -/
theorem claim_C3 (is : Issues) (g : MultiDiGraph)
    (h : (entrySources g).length ≠ 1) :
    find_entry_object is g =
      (is.add_error Message.multipleDatasets, (entrySources g).head?) := by
  simp [find_entry_object, h]

/-- Witness for C3: on gTwo the source list has length 2 and the first
source s1 is returned next to the recorded error. -/
theorem claim_C3_witness :
    (entrySources gTwo).length ≠ 1
    ∧ find_entry_object Issues.empty gTwo =
        (Issues.empty.add_error Message.multipleDatasets, some (RdfTerm.bnode "s1")) :=
  ⟨by decide, (claim_C3 Issues.empty gTwo (by decide)).trans (by decide)⟩

/-- Counterexample to C4: on the graph gTwo with two in-degree-0 blank
nodes, entry resolution fails, yet check_rdf_graph does not stop: it
materializes the first candidate as metadata and returns a non-empty node
list, not the empty list the claim asserts. -/
theorem claim_C4_counterexample :
    (entrySources gTwo).length = 2
    ∧ (check_rdf_graph Issues.empty gTwo).2 =
        some [materialize gTwo (RdfTerm.bnode "s1") NodeKind.metadata]
    ∧ (check_rdf_graph Issues.empty gTwo).2 ≠ some [] := by decide

/-- C4 as amended: when there is no entry candidate at all, check_rdf_graph
produces no node list (the IndexError inside _find_entry_object propagates)
and the issues hold the recorded entry error; when there are one or more
candidates - even several, i.e. even when entry resolution failed - it does
not stop: it walks the graph from the first candidate and returns the full
materialized node list headed by that metadata node, and with two or more
candidates the recorded multiple-datasets error heads the diagnostics the
run appends, followed by the rest of the walk's issue stream. -/
theorem claim_C4 (is : Issues) (g : MultiDiGraph) :
    (entrySources g = [] →
      check_rdf_graph is g = (is.add_error Message.multipleDatasets, none))
    ∧ (∀ (m0 : RdfTerm) (rest : List RdfTerm), entrySources g = m0 :: rest →
        (check_rdf_graph is g).2 = some (checkNodeList g m0)
        ∧ (rest ≠ [] →
            (check_rdf_graph is g).1.issues =
              is.issues ++ ⟨Severity.error, Message.multipleDatasets, is.context⟩
                :: checkIssueStream g m0 [] is.context)) := by
  refine ⟨fun h => check_rdf_graph_none is g h, fun m0 rest h => ?_⟩
  rw [check_rdf_graph_spec is g m0 rest h]
  refine ⟨rfl, fun hr => ?_⟩
  simp [checkIssueStream, hr, List.append_assoc]

/-- Witness for C4: the empty graph yields no node list with the error
recorded; gTwo (failed entry resolution with two candidates) yields the
full non-empty node list of its first candidate, with the recorded
multiple-datasets error heading the new diagnostics. -/
theorem claim_C4_witness :
    (entrySources gEmptyG = []
      ∧ check_rdf_graph Issues.empty gEmptyG =
          (Issues.empty.add_error Message.multipleDatasets, none))
    ∧ (entrySources gTwo = [RdfTerm.bnode "s1", RdfTerm.bnode "s2"]
      ∧ (check_rdf_graph Issues.empty gTwo).2 =
          some (checkNodeList gTwo (RdfTerm.bnode "s1"))
      ∧ ([RdfTerm.bnode "s2"] : List RdfTerm) ≠ []
      ∧ (check_rdf_graph Issues.empty gTwo).1.issues =
          Issues.empty.issues
            ++ ⟨Severity.error, Message.multipleDatasets, Issues.empty.context⟩
              :: checkIssueStream gTwo (RdfTerm.bnode "s1") [] Issues.empty.context) :=
  ⟨⟨by decide, (claim_C4 Issues.empty gEmptyG).1 (by decide)⟩,
   ⟨by decide,
     ((claim_C4 Issues.empty gTwo).2 (RdfTerm.bnode "s1") [RdfTerm.bnode "s2"]
       (by decide)).1,
    by decide,
     ((claim_C4 Issues.empty gTwo).2 (RdfTerm.bnode "s1") [RdfTerm.bnode "s2"]
       (by decide)).2 (by decide)⟩⟩

/-- Counterexample to C5: in the graph gAdj with record sets r1 (field a)
and r2 (field b), the record-set node of r2 - a record set other than r1 -
stands between the r1 node and r1's only field node (output positions 1, 2
and 3): a record set is not placed immediately before its field nodes. -/
theorem claim_C5_counterexample :
    (check_rdf_graph Issues.empty gAdj).2 =
      some [materialize gAdj (RdfTerm.bnode "m") NodeKind.metadata,
            materialize gAdj (RdfTerm.bnode "r1") NodeKind.recordSet,
            materialize gAdj (RdfTerm.bnode "r2") NodeKind.recordSet,
            materialize gAdj (RdfTerm.bnode "a") NodeKind.field,
            materialize gAdj (RdfTerm.bnode "b") NodeKind.field]
    ∧ (materialize gAdj (RdfTerm.bnode "r2") NodeKind.recordSet).kind = NodeKind.recordSet
    ∧ materialize gAdj (RdfTerm.bnode "r2") NodeKind.recordSet ≠
        materialize gAdj (RdfTerm.bnode "r1") NodeKind.recordSet
    ∧ childIds gAdj (RdfTerm.bnode "r1") ML_COMMONS_FIELD = [RdfTerm.bnode "a"] := by decide

/-- C5 as amended: for every graph with an entry candidate, the output
places the metadata node first, then the distribution nodes, then all
record-set nodes as one consecutive block, and only after that block the
per-record-set groups of field nodes with each field's sub-fields - not
each record set immediately before its own fields. -/
theorem claim_C5 (is : Issues) (g : MultiDiGraph) (m0 : RdfTerm) (rest : List RdfTerm)
    (h : entrySources g = m0 :: rest) :
    (check_rdf_graph is g).2 =
      some (materialize g m0 NodeKind.metadata
        :: (childNodes g m0 SCHEMA_ORG_DISTRIBUTION
            ++ childNodes g m0 ML_COMMONS_RECORD_SET
            ++ concatMap (rsBlock g) (childNodes g m0 ML_COMMONS_RECORD_SET))) := by
  rw [check_rdf_graph_spec is g m0 rest h]
  rfl

/-- Witness for C5: the amended ordering on the concrete graph gAdj. -/
theorem claim_C5_witness :
    entrySources gAdj = [RdfTerm.bnode "m"]
    ∧ (check_rdf_graph Issues.empty gAdj).2 =
        some (materialize gAdj (RdfTerm.bnode "m") NodeKind.metadata
          :: (childNodes gAdj (RdfTerm.bnode "m") SCHEMA_ORG_DISTRIBUTION
              ++ childNodes gAdj (RdfTerm.bnode "m") ML_COMMONS_RECORD_SET
              ++ concatMap (rsBlock gAdj)
                  (childNodes gAdj (RdfTerm.bnode "m") ML_COMMONS_RECORD_SET))) :=
  ⟨by decide, claim_C5 Issues.empty gAdj (RdfTerm.bnode "m") [] (by decide)⟩

/-- C6: for every graph with a unique entry, the structural errors of a
validation run are exactly one no-field error per record set whose
discovered field list is empty, each carrying the context with
dataset_name the metadata name, record_set_name the record set's name and
field_name the empty string; and every record-set node still appears in
the returned node list. -/
theorem claim_C6 (g : MultiDiGraph) (m0 : RdfTerm)
    (h : entrySources g = [m0]) :
    ((check_rdf_graph Issues.empty g).1.issues.filter Issue.isStructuralError =
      ((childNodes g m0 ML_COMMONS_RECORD_SET).filter
          (fun rs => decide ((childIds g rs.uid ML_COMMONS_FIELD).length = 0))).map
        (fun rs => ⟨Severity.error, Message.noField,
          ⟨some (materialize g m0 NodeKind.metadata).name, none, some rs.name, some ""⟩⟩))
    ∧ ∀ l, (check_rdf_graph Issues.empty g).2 = some l →
        ∀ rs ∈ childNodes g m0 ML_COMMONS_RECORD_SET, rs ∈ l := by
  rw [check_rdf_graph_spec Issues.empty g m0 [] h]
  constructor
  · simp only [Issues.empty, List.nil_append]
    rw [checkIssueStream_filter_structural]
    simp [pushRsContext, Context.empty]
  · intro l hl rs hrs
    simp only [Option.some_inj] at hl
    subst hl
    simp [checkNodeList, hrs]

/-- Witness for C6: on gNoFieldRs (record set named passengers with no
fields under metadata named Titanic) the structural errors are exactly the
one mapped no-field error and the record-set node is in the list. -/
theorem claim_C6_witness :
    entrySources gNoFieldRs = [RdfTerm.bnode "m"]
    ∧ (((check_rdf_graph Issues.empty gNoFieldRs).1.issues.filter Issue.isStructuralError =
        ((childNodes gNoFieldRs (RdfTerm.bnode "m") ML_COMMONS_RECORD_SET).filter
            (fun rs => decide ((childIds gNoFieldRs rs.uid ML_COMMONS_FIELD).length = 0))).map
          (fun rs => ⟨Severity.error, Message.noField,
            ⟨some (materialize gNoFieldRs (RdfTerm.bnode "m") NodeKind.metadata).name,
             none, some rs.name, some ""⟩⟩))
      ∧ ∀ l, (check_rdf_graph Issues.empty gNoFieldRs).2 = some l →
          ∀ rs ∈ childNodes gNoFieldRs (RdfTerm.bnode "m") ML_COMMONS_RECORD_SET, rs ∈ l) :=
  ⟨by decide, claim_C6 gNoFieldRs (RdfTerm.bnode "m") (by decide)⟩

/-- Counterexample to C7: on gRsNoName the metadata is named Titanic, and
the single recorded error - raised while materializing the record-set node
itself (step 3 of the walk) - carries the empty context, whose
dataset_name is none and not some Titanic: not every error recorded after
the dataset scope was first pushed carries dataset_name equal to the
metadata name, because the scope is popped again when the distribution
with-block exits, before the record sets are materialized. -/
theorem claim_C7_counterexample :
    (check_rdf_graph Issues.empty gRsNoName).1.issues =
      [⟨Severity.error, Message.missingMandatory "name", Context.empty⟩]
    ∧ (materialize gRsNoName (RdfTerm.bnode "m") NodeKind.metadata).name = "Titanic"
    ∧ (⟨Severity.error, Message.missingMandatory "name", Context.empty⟩ : Issue).context.dataset_name ≠
        some (materialize gRsNoName (RdfTerm.bnode "m") NodeKind.metadata).name := by decide

/-- C7 as amended: the issues of a run decompose into the documented
phases; every error recorded while materializing distributions (inside the
dataset context block) and every error recorded inside a record-set scope
carries dataset_name equal to the metadata name, but the errors raised
while materializing the record-set nodes themselves carry the outer
context's dataset_name (none for a fresh run), since the dataset scope has
already been popped there. -/
theorem claim_C7 (is : Issues) (g : MultiDiGraph) (m0 : RdfTerm) (rest : List RdfTerm)
    (h : entrySources g = m0 :: rest) :
    ((check_rdf_graph is g).1.issues = is.issues ++ checkIssueStream g m0 rest is.context)
    ∧ (∀ i ∈ listMatIssues g NodeKind.distribution
          (pushDistContext is.context (materialize g m0 NodeKind.metadata).name)
          (childIds g m0 SCHEMA_ORG_DISTRIBUTION),
        i.context.dataset_name = some (materialize g m0 NodeKind.metadata).name)
    ∧ (∀ i ∈ concatMap (rsIssues g (materialize g m0 NodeKind.metadata).name is.context)
          (childNodes g m0 ML_COMMONS_RECORD_SET),
        i.context.dataset_name = some (materialize g m0 NodeKind.metadata).name)
    ∧ (∀ i ∈ listMatIssues g NodeKind.recordSet is.context
          (childIds g m0 ML_COMMONS_RECORD_SET),
        i.context.dataset_name = is.context.dataset_name) := by
  refine ⟨by rw [check_rdf_graph_spec is g m0 rest h], ?_, ?_, ?_⟩
  · intro i hi
    rw [(listMatIssues_mem _ _ _ _ i hi).1]
    rfl
  · intro i hi
    rw [mem_concatMap] at hi
    obtain ⟨rs, _, hirs⟩ := hi
    rw [rsIssues_mem_context _ _ _ _ i hirs]
    rfl
  · intro i hi
    rw [(listMatIssues_mem _ _ _ _ i hi).1]

/-- Witness for C7: the amended context attribution on the concrete graph
gRsNoName. -/
theorem claim_C7_witness :
    entrySources gRsNoName = [RdfTerm.bnode "m"]
    ∧ (((check_rdf_graph Issues.empty gRsNoName).1.issues =
          Issues.empty.issues
            ++ checkIssueStream gRsNoName (RdfTerm.bnode "m") [] Issues.empty.context)
      ∧ (∀ i ∈ listMatIssues gRsNoName NodeKind.distribution
            (pushDistContext Issues.empty.context
              (materialize gRsNoName (RdfTerm.bnode "m") NodeKind.metadata).name)
            (childIds gRsNoName (RdfTerm.bnode "m") SCHEMA_ORG_DISTRIBUTION),
          i.context.dataset_name =
            some (materialize gRsNoName (RdfTerm.bnode "m") NodeKind.metadata).name)
      ∧ (∀ i ∈ concatMap
            (rsIssues gRsNoName
              (materialize gRsNoName (RdfTerm.bnode "m") NodeKind.metadata).name
              Issues.empty.context)
            (childNodes gRsNoName (RdfTerm.bnode "m") ML_COMMONS_RECORD_SET),
          i.context.dataset_name =
            some (materialize gRsNoName (RdfTerm.bnode "m") NodeKind.metadata).name)
      ∧ (∀ i ∈ listMatIssues gRsNoName NodeKind.recordSet Issues.empty.context
            (childIds gRsNoName (RdfTerm.bnode "m") ML_COMMONS_RECORD_SET),
          i.context.dataset_name = Issues.empty.context.dataset_name)) :=
  ⟨by decide, claim_C7 Issues.empty gRsNoName (RdfTerm.bnode "m") [] (by decide)⟩

/-- The mandatory list of every variant contract is duplicate-free. -/
theorem schemaOf_mandatory_nodup (kind : NodeKind) : (schemaOf kind).mandatory.Nodup := by
  cases kind <;> decide

/-- The issues of a generic materialization, as filtered maps over the
variant's mandatory and optional lists. -/
theorem from_rdf_graph_issues (js : Issues) (g : MultiDiGraph) (uid : RdfTerm)
    (kind : NodeKind) :
    (from_rdf_graph js g uid kind).1.issues =
      js.issues
      ++ ((schemaOf kind).mandatory.filter (fun f => isEmptyVal (getProperty g uid f))).map
          (fun f => ⟨Severity.error, Message.missingMandatory f, js.context⟩)
      ++ ((schemaOf kind).optional.filter (fun f => isEmptyVal (getProperty g uid f))).map
          (fun f => ⟨Severity.warning, Message.missingOptional f, js.context⟩) := by
  rw [from_rdf_graph_spec]
  simp [matIssues, filterMap_ite_some, List.append_assoc]

/-- A missing-mandatory error for a property outside the list occurs zero
times among the mapped errors. -/
theorem countP_errMap_eq_zero (ctx : Context) (miss : String → Bool) (ps : List String)
    (f : String) (hnotin : f ∉ ps) :
    ((ps.filter miss).map
        (fun x => (⟨Severity.error, Message.missingMandatory x, ctx⟩ : Issue))).countP
      (fun i => decide (i = ⟨Severity.error, Message.missingMandatory f, ctx⟩)) = 0 := by
  rw [List.countP_eq_zero]
  intro i hi
  simp only [List.mem_map, List.mem_filter] at hi
  obtain ⟨x, ⟨hx, _⟩, rfl⟩ := hi
  simp only [decide_eq_true_eq, Issue.mk.injEq, Message.missingMandatory.injEq,
    true_and, and_true]
  rintro rfl
  exact hnotin hx

/-- A missing-mandatory error for a missing property of a duplicate-free
list occurs exactly once among the mapped errors. -/
theorem countP_errMap_eq_one (ctx : Context) (miss : String → Bool) :
    ∀ ps : List String, ps.Nodup → ∀ f ∈ ps, miss f = true →
    ((ps.filter miss).map
        (fun x => (⟨Severity.error, Message.missingMandatory x, ctx⟩ : Issue))).countP
      (fun i => decide (i = ⟨Severity.error, Message.missingMandatory f, ctx⟩)) = 1 := by
  intro ps
  induction ps with
  | nil =>
    intro _ f hf
    cases hf
  | cons p ps ih =>
    intro hnd f hf hm
    have hnd1 := (List.nodup_cons.mp hnd).1
    have hnd2 := (List.nodup_cons.mp hnd).2
    rcases List.mem_cons.mp hf with rfl | hf2
    · rw [List.filter_cons]
      simp only [hm, if_true, List.map_cons, List.countP_cons]
      rw [countP_errMap_eq_zero ctx miss ps f hnd1]
      simp
    · by_cases hp : miss p
      · have hpf : p ≠ f := by
          rintro rfl
          exact hnd1 hf2
        rw [List.filter_cons]
        simp only [hp, if_true, List.map_cons, List.countP_cons]
        rw [ih hnd2 f hf2 hm]
        simp [hpf]
      · rw [List.filter_cons]
        simp only [hp, if_false, Bool.false_eq_true]
        exact ih hnd2 f hf2 hm

/-- The mapped optional warnings never count as a missing-mandatory
error. -/
theorem countP_warnMap_eq_zero (ctx : Context) (miss : String → Bool) (qs : List String)
    (f : String) :
    ((qs.filter miss).map
        (fun x => (⟨Severity.warning, Message.missingOptional x, ctx⟩ : Issue))).countP
      (fun i => decide (i = ⟨Severity.error, Message.missingMandatory f, ctx⟩)) = 0 := by
  rw [List.countP_eq_zero]
  intro i hi
  simp only [List.mem_map, List.mem_filter] at hi
  obtain ⟨x, _, rfl⟩ := hi
  simp

/-- The materialization contract of every node variant: the node is
returned regardless of violations, the issues grow by exactly the missing
mandatory errors then the missing optional warnings of the variant's
contract, and the count of the error referencing a missing mandatory
property rises by exactly one. -/
theorem from_rdf_graph_variant_contract :
    ∀ (kind : NodeKind) (g : MultiDiGraph) (uid : RdfTerm) (js : Issues),
      ((from_rdf_graph js g uid kind).2 = materialize g uid kind)
      ∧ ((from_rdf_graph js g uid kind).1.issues =
          js.issues
          ++ ((schemaOf kind).mandatory.filter
                (fun f => isEmptyVal (getProperty g uid f))).map
              (fun f => ⟨Severity.error, Message.missingMandatory f, js.context⟩)
          ++ ((schemaOf kind).optional.filter
                (fun f => isEmptyVal (getProperty g uid f))).map
              (fun f => ⟨Severity.warning, Message.missingOptional f, js.context⟩))
      ∧ (∀ f ∈ (schemaOf kind).mandatory, isEmptyVal (getProperty g uid f) = true →
          ((from_rdf_graph js g uid kind).1.issues.countP
              (fun i => decide
                (i = ⟨Severity.error, Message.missingMandatory f, js.context⟩))) =
            (js.issues.countP
              (fun i => decide
                (i = ⟨Severity.error, Message.missingMandatory f, js.context⟩))) + 1) := by
  intro kind g uid js
  refine ⟨rfl, from_rdf_graph_issues js g uid kind, ?_⟩
  intro f hf hm
  rw [from_rdf_graph_issues js g uid kind]
  simp only [List.countP_append]
  rw [countP_errMap_eq_one js.context (fun f => isEmptyVal (getProperty g uid f))
      (schemaOf kind).mandatory (schemaOf_mandatory_nodup kind) f hf hm,
    countP_warnMap_eq_zero]

/-- C8: for every node variant, materialization never aborts - the
constructed node is returned carrying the (possibly defaulted) values -
and the issues grow by exactly one error per missing mandatory property
referencing that property's name, followed by one warning per missing
optional property; in particular the count of the error referencing a
missing mandatory property f rises by exactly one. Stated for the Metadata
dataclass of metadata.py and, in the final conjunct, for the generic
materializer at every variant (metadata, distribution, record set, field,
sub-field). -/
theorem claim_C8 (citation description license : Option String) (name url : String)
    (is : Issues) :
    ((Metadata.make citation description license name url is).2 =
      ⟨citation, description, license, name, url⟩)
    ∧ ((Metadata.make citation description license name url is).1.issues =
        is.issues
        ++ (Metadata.mandatoryProperties.filter
              (fun f => isEmptyVal
                (Metadata.getattr ⟨citation, description, license, name, url⟩ f))).map
            (fun f => ⟨Severity.error, Message.missingMandatory f, is.context⟩)
        ++ (Metadata.optionalProperties.filter
              (fun f => isEmptyVal
                (Metadata.getattr ⟨citation, description, license, name, url⟩ f))).map
            (fun f => ⟨Severity.warning, Message.missingOptional f, is.context⟩))
    ∧ (∀ f ∈ Metadata.mandatoryProperties,
        isEmptyVal (Metadata.getattr ⟨citation, description, license, name, url⟩ f) = true →
        ((Metadata.make citation description license name url is).1.issues.countP
            (fun i => decide (i = ⟨Severity.error, Message.missingMandatory f, is.context⟩))) =
          (is.issues.countP
            (fun i => decide (i = ⟨Severity.error, Message.missingMandatory f, is.context⟩))) + 1)
    ∧ (∀ (kind : NodeKind) (g : MultiDiGraph) (uid : RdfTerm) (js : Issues),
        ((from_rdf_graph js g uid kind).2 = materialize g uid kind)
        ∧ ((from_rdf_graph js g uid kind).1.issues =
            js.issues
            ++ ((schemaOf kind).mandatory.filter
                  (fun f => isEmptyVal (getProperty g uid f))).map
                (fun f => ⟨Severity.error, Message.missingMandatory f, js.context⟩)
            ++ ((schemaOf kind).optional.filter
                  (fun f => isEmptyVal (getProperty g uid f))).map
                (fun f => ⟨Severity.warning, Message.missingOptional f, js.context⟩))
        ∧ (∀ f ∈ (schemaOf kind).mandatory, isEmptyVal (getProperty g uid f) = true →
            ((from_rdf_graph js g uid kind).1.issues.countP
                (fun i => decide
                  (i = ⟨Severity.error, Message.missingMandatory f, js.context⟩))) =
              (js.issues.countP
                (fun i => decide
                  (i = ⟨Severity.error, Message.missingMandatory f, js.context⟩))) + 1)) := by
  have heq : (Metadata.make citation description license name url is).1.issues =
      is.issues
      ++ (Metadata.mandatoryProperties.filter
            (fun f => isEmptyVal
              (Metadata.getattr ⟨citation, description, license, name, url⟩ f))).map
          (fun f => ⟨Severity.error, Message.missingMandatory f, is.context⟩)
      ++ (Metadata.optionalProperties.filter
            (fun f => isEmptyVal
              (Metadata.getattr ⟨citation, description, license, name, url⟩ f))).map
          (fun f => ⟨Severity.warning, Message.missingOptional f, is.context⟩) := by
    show (Metadata.postInit _ is).issues = _
    rw [Metadata.postInit, assert_mand_spec, assert_opt_spec]
    simp [filterMap_ite_some, List.append_assoc]
  refine ⟨rfl, heq, ?_, from_rdf_graph_variant_contract⟩
  intro f hf hempty
  rw [heq]
  have hmand : Metadata.mandatoryProperties = ["name", "url"] := rfl
  rw [hmand] at hf
  simp only [List.mem_cons, List.not_mem_nil, or_false] at hf
  rcases hf with rfl | rfl
  · by_cases hu :
      isEmptyVal (Metadata.getattr ⟨citation, description, license, name, url⟩ "url") <;>
    by_cases hc :
      isEmptyVal (Metadata.getattr ⟨citation, description, license, name, url⟩ "citation") <;>
    by_cases hl :
      isEmptyVal (Metadata.getattr ⟨citation, description, license, name, url⟩ "license") <;>
      simp [Metadata.mandatoryProperties, Metadata.optionalProperties, hempty, hu, hc, hl,
        List.countP_append, List.countP_cons]
  · by_cases hn :
      isEmptyVal (Metadata.getattr ⟨citation, description, license, name, url⟩ "name") <;>
    by_cases hc :
      isEmptyVal (Metadata.getattr ⟨citation, description, license, name, url⟩ "citation") <;>
    by_cases hl :
      isEmptyVal (Metadata.getattr ⟨citation, description, license, name, url⟩ "license") <;>
      simp [Metadata.mandatoryProperties, Metadata.optionalProperties, hempty, hn, hc, hl,
        List.countP_append, List.countP_cons]

/-- Witness for C8: constructing a Metadata with an empty name and a
present url adds exactly one missing-mandatory error for name, and the
generic materializer at the record-set variant does the same on the
name-less record set r of gRsNoName. -/
theorem claim_C8_witness :
    "name" ∈ Metadata.mandatoryProperties
    ∧ isEmptyVal
        (Metadata.getattr ⟨none, none, none, "", "https://www.openml.org/d/40945"⟩ "name") = true
    ∧ ((Metadata.make none none none "" "https://www.openml.org/d/40945" Issues.empty).1.issues.countP
          (fun i => decide (i =
            ⟨Severity.error, Message.missingMandatory "name", Issues.empty.context⟩))) =
        (Issues.empty.issues.countP
          (fun i => decide (i =
            ⟨Severity.error, Message.missingMandatory "name", Issues.empty.context⟩))) + 1
    ∧ "name" ∈ (schemaOf NodeKind.recordSet).mandatory
    ∧ isEmptyVal (getProperty gRsNoName (RdfTerm.bnode "r") "name") = true
    ∧ ((from_rdf_graph Issues.empty gRsNoName (RdfTerm.bnode "r") NodeKind.recordSet).1.issues.countP
          (fun i => decide (i =
            ⟨Severity.error, Message.missingMandatory "name", Issues.empty.context⟩))) =
        (Issues.empty.issues.countP
          (fun i => decide (i =
            ⟨Severity.error, Message.missingMandatory "name", Issues.empty.context⟩))) + 1 :=
  ⟨by decide, by decide,
   (claim_C8 none none none "" "https://www.openml.org/d/40945" Issues.empty).2.2.1
     "name" (by decide) (by decide),
   by decide, by decide,
   ((claim_C8 none none none "" "https://www.openml.org/d/40945" Issues.empty).2.2.2
     NodeKind.recordSet gRsNoName (RdfTerm.bnode "r") Issues.empty).2.2
     "name" (by decide) (by decide)⟩

/-- C9: Metadata nodes are immutable after construction - the frozen
dataclass rejects every field assignment with FrozenInstanceError - and
construction is pure: the instance returned by make is exactly the record
of the given field values, independent of the issues collector. -/
theorem claim_C9 :
    (∀ (m : Metadata) (f : MetadataField) (v : Option String),
        Metadata.setattr m f v = Except.error FrozenInstanceError.frozenInstanceError)
    ∧ (∀ (citation description license : Option String) (name url : String) (is : Issues),
        (Metadata.make citation description license name url is).2 =
          ⟨citation, description, license, name, url⟩) :=
  ⟨fun _ _ _ => rfl, fun _ _ _ _ _ _ => rfl⟩

/-- C10: the Metadata mandatory check covers exactly name and url and the
optional check exactly citation and license; description is in neither
list, and the issues produced by construction are entirely independent of
the description value, so an absent description triggers no error and no
warning. -/
theorem claim_C10 :
    Metadata.mandatoryProperties = ["name", "url"]
    ∧ Metadata.optionalProperties = ["citation", "license"]
    ∧ "description" ∉ Metadata.mandatoryProperties
    ∧ "description" ∉ Metadata.optionalProperties
    ∧ ∀ (citation license : Option String) (name url : String) (is : Issues)
        (description : Option String),
        (Metadata.make citation description license name url is).1 =
          (Metadata.make citation none license name url is).1 :=
  ⟨rfl, rfl, by decide, by decide, fun _ _ _ _ _ _ => rfl⟩

end Croissant
